import Mathlib

/-!
Shallow embedding of the `testsprite_tests` Playwright scripts
(TC001, TC003, TC007, TC008) and of the fragments of the Python /
Playwright runtime semantics their behaviour depends on.

Each script is a straight-line `async def run_test` wrapped in
`try ... finally`, launched by `asyncio.run(run_test())` at module level.
The statement model below transcribes the bodies one statement per
source action; the `frame = context.pages[-1]` / `elem = frame.locator(...)`
resolution lines are folded into the fill / click statements they serve,
as in the source each such pair exists only to perform that operation.
-/

/-- Statement model of the scripts. Each fill and click in the source is
written on one line as `await page.wait_for_timeout(ms); await elem.fill(...)`
(resp. `.click(...)`), so the unconditional pre-delay is a field of the
statement. A `fill` call carries no explicit timeout in the source
(it inherits the context default); a `click` carries `timeout=5000`.
`tryWaitForLoadState` is the source's `wait_for_load_state` wrapped in
`try ... except async_api.Error: pass`; `framesTryWaitForLoadState` is the
same wrapped call iterated over `page.frames`. `expectVisible` is the
terminal assertion block `try: await expect(...).to_be_visible(timeout)
except AssertionError: raise AssertionError(authoredMsg)`. `assertVisible`
is TC007's plain `assert await elem.is_visible()` (no wait of its own). -/
inductive Stmt where
  | goto (url : String) (waitUntil : String) (timeoutMs : Option Nat)
  | tryWaitForLoadState (state : String) (timeoutMs : Nat)
  | framesTryWaitForLoadState (state : String) (timeoutMs : Nat)
  | fill (preDelayMs : Nat) (xpath : String) (text : String) (timeoutMs : Option Nat)
  | click (preDelayMs : Nat) (xpath : String) (timeoutMs : Option Nat)
  | waitForVisible (selector : String) (timeoutMs : Nat)
  | assertVisible (selector : String) (msg : String)
  | expectVisible (selector : String) (timeoutMs : Nat) (authoredMsg : String)
  | sleepSeconds (s : Nat)
deriving DecidableEq, Repr

/-- Default timeout installed by `context.set_default_timeout(5000)`
(line 26 of every script) before any action runs. -/
def defaultTimeoutMs : Nat := 5000

/-- Email input, `html/body/div/div/...` variant (e.g. TC001 line 57). -/
def emailA : String := "xpath=html/body/div/div/div/div[2]/form/div[1]/div/input"

/-- Email input, `html/body/div[1]/div/...` variant (e.g. TC003 line 70). -/
def emailB : String := "xpath=html/body/div[1]/div/div/div[2]/form/div[1]/div/input"

/-- Password input, `html/body/div/div/...` variant (e.g. TC001 line 62). -/
def pwdA : String := "xpath=html/body/div/div/div/div[2]/form/div[2]/div/input"

/-- Password input, `html/body/div[1]/div/...` variant (e.g. TC003 line 75). -/
def pwdB : String := "xpath=html/body/div[1]/div/div/div[2]/form/div[2]/div/input"

/-- Login submit button, form variant (e.g. TC001 line 67). -/
def submitA : String := "xpath=html/body/div/div/div/div[2]/form/button"

/-- Login submit (Entrar) button, `div[2]/button[1]` variant (e.g. TC003 line 97). -/
def submitB : String := "xpath=html/body/div[1]/div/div/div[2]/div[2]/button[1]"

/-- Login submit button, `div[1]` form variant (e.g. TC003 line 164). -/
def submitC : String := "xpath=html/body/div[1]/div/div/div[2]/form/button"

/-- Cadastre-se button clicked in TC001 (line 73). -/
def cadastreBtn : String := "xpath=html/body/div/div/div/div[3]/p/button"

/-- SVG spinner clicked in TC007 (line 60). -/
def spinnerSvg : String := "xpath=html/body/div/div/svg"

/-- Base URL used by every script. -/
def rootUrl : String := "http://localhost:3000"

/-- Login route. -/
def loginUrl : String := "http://localhost:3000/login"

/-- Root route with trailing slash, as in TC003 line 117. -/
def rootSlashUrl : String := "http://localhost:3000/"

/-- Protected activities route. -/
def atividadesUrl : String := "http://localhost:3000/iniciativas/atividades"

/-- Authored failure message of TC001 (line 93); the single-quote characters
that surround the quoted UI texts in the source string are elided here. -/
def tc001AuthoredMsg : String :=
  "Test case failed: Não foi possível verificar que a nova iniciativa foi cadastrada com sucesso. O teste esperava ver a mensagem de confirmação Iniciativa salva com sucesso. e que Iniciativa E2E - Cadastro aparecesse na lista, mas isso não ocorreu."

/-- Authored failure message of TC003 (line 340); single-quote characters elided. -/
def tc003AuthoredMsg : String :=
  "Test case failed: o teste verificava que o formulário impediria salvar quando a Data início (20/06/2026) é posterior à Data final (10/06/2026) e exibiria a mensagem de validação início não pode ser posterior ao fim, mas essa mensagem não foi encontrada"

/-- Authored failure message of TC008 (line 113); single-quote characters elided. -/
def tc008AuthoredMsg : String :=
  "Test case failed: ao clicar em Salvar Evidências esperava-se que as alterações fossem persistidas e o toast de sucesso Evidências salvas com sucesso fosse exibido, mas o toast não apareceu."

/-- TC007 assert message (line 117). -/
def tc007AssertMsg : String := "Expected \"Evidências\" to be visible"

/-- Statement sequence of TC001 `run_test` (body of the `try`, lines 32 to 94). -/
def tc001Stmts : List Stmt :=
  [ .goto rootUrl "commit" (some 10000)
  , .tryWaitForLoadState "domcontentloaded" 3000
  , .framesTryWaitForLoadState "domcontentloaded" 3000
  , .goto rootUrl "commit" (some 10000)
  , .goto loginUrl "commit" (some 10000)
  , .fill 3000 emailA "example@gmail.com" none
  , .fill 3000 pwdA "password123" none
  , .click 3000 submitA (some 5000)
  , .click 3000 cadastreBtn (some 5000)
  , .goto loginUrl "commit" (some 10000)
  , .goto loginUrl "commit" (some 10000)
  , .goto rootUrl "commit" (some 10000)
  , .goto atividadesUrl "commit" (some 10000)
  , .expectVisible "text=Iniciativa salva com sucesso." 3000 tc001AuthoredMsg
  , .sleepSeconds 5 ]

/-- Statement sequence of TC003 `run_test` as authored (lines 32 to 342);
the file itself does not parse (see `tc003FenceLine`), this is the statement
list its body spells out. -/
def tc003Stmts : List Stmt :=
  [ .goto rootUrl "commit" (some 10000)
  , .tryWaitForLoadState "domcontentloaded" 3000
  , .framesTryWaitForLoadState "domcontentloaded" 3000
  , .goto rootUrl "commit" (some 10000)
  , .fill 3000 emailA "example@gmail.com" none
  , .fill 3000 pwdA "password123" none
  , .click 3000 submitA (some 5000)
  , .fill 3000 emailB "example@gmail.com" none
  , .fill 3000 pwdB "password123" none
  , .fill 3000 emailA "example@gmail.com" none
  , .fill 3000 pwdA "password123" none
  , .click 3000 submitA (some 5000)
  , .click 3000 submitB (some 5000)
  , .fill 3000 emailA "example@gmail.com" none
  , .fill 3000 pwdA "password123" none
  , .click 3000 submitA (some 5000)
  , .goto rootSlashUrl "commit" (some 10000)
  , .fill 3000 emailA "example@gmail.com" none
  , .fill 3000 pwdA "password123" none
  , .click 3000 submitA (some 5000)
  , .fill 3000 emailB "example@gmail.com" none
  , .fill 3000 pwdB "password123" none
  , .click 3000 submitB (some 5000)
  , .fill 3000 emailB "example@gmail.com" none
  , .fill 3000 pwdB "password123" none
  , .click 3000 submitC (some 5000)
  , .fill 3000 emailA "example@gmail.com" none
  , .fill 3000 pwdA "password123" none
  , .click 3000 submitA (some 5000)
  , .fill 3000 emailB "example@gmail.com" none
  , .fill 3000 pwdB "password123" none
  , .fill 3000 emailA "example@gmail.com" none
  , .fill 3000 pwdA "password123" none
  , .click 3000 submitA (some 5000)
  , .fill 3000 emailB "example@gmail.com" none
  , .fill 3000 pwdB "password123" none
  , .click 3000 submitB (some 5000)
  , .fill 3000 emailB "example@gmail.com" none
  , .fill 3000 pwdB "password123" none
  , .click 3000 submitC (some 5000)
  , .fill 3000 emailA "example@gmail.com" none
  , .fill 3000 pwdA "password123" none
  , .click 3000 submitA (some 5000)
  , .fill 3000 emailB "example@gmail.com" none
  , .fill 3000 pwdB "password123" none
  , .click 3000 submitB (some 5000)
  , .goto atividadesUrl "commit" (some 10000)
  , .fill 3000 emailA "example@gmail.com" none
  , .fill 3000 pwdA "password123" none
  , .click 3000 submitA (some 5000)
  , .fill 3000 emailB "example@gmail.com" none
  , .fill 3000 pwdB "password123" none
  , .click 3000 submitB (some 5000)
  , .click 3000 submitC (some 5000)
  , .goto atividadesUrl "commit" (some 10000)
  , .fill 3000 emailA "example@gmail.com" none
  , .fill 3000 pwdA "password123" none
  , .click 3000 submitA (some 5000)
  , .expectVisible "text=início não pode ser posterior ao fim" 3000 tc003AuthoredMsg
  , .sleepSeconds 5 ]

/-- Statement sequence of TC007 `run_test` (lines 32 to 118). -/
def tc007Stmts : List Stmt :=
  [ .goto rootUrl "commit" (some 10000)
  , .tryWaitForLoadState "domcontentloaded" 3000
  , .framesTryWaitForLoadState "domcontentloaded" 3000
  , .goto rootUrl "commit" (some 10000)
  , .goto loginUrl "commit" (some 10000)
  , .goto loginUrl "commit" (some 10000)
  , .click 3000 spinnerSvg (some 5000)
  , .fill 3000 emailA "example@gmail.com" none
  , .fill 3000 pwdA "password123" none
  , .click 3000 submitA (some 5000)
  , .fill 3000 emailA "example@gmail.com" none
  , .fill 3000 pwdA "password123" none
  , .click 3000 submitA (some 5000)
  , .fill 3000 emailA "example@gmail.com" none
  , .fill 3000 pwdA "password123" none
  , .click 3000 submitA (some 5000)
  , .waitForVisible "text=Evidências" 5000
  , .assertVisible "text=Evidências" tc007AssertMsg
  , .sleepSeconds 5 ]

/-- Statement sequence of TC008 `run_test` (lines 32 to 114). -/
def tc008Stmts : List Stmt :=
  [ .goto rootUrl "commit" (some 10000)
  , .tryWaitForLoadState "domcontentloaded" 3000
  , .framesTryWaitForLoadState "domcontentloaded" 3000
  , .goto rootUrl "commit" (some 10000)
  , .goto loginUrl "commit" (some 10000)
  , .fill 3000 emailA "example@gmail.com" none
  , .fill 3000 pwdA "password123" none
  , .click 3000 submitA (some 5000)
  , .fill 3000 emailB "example@gmail.com" none
  , .fill 3000 pwdB "password123" none
  , .click 3000 submitB (some 5000)
  , .fill 3000 emailA "example@gmail.com" none
  , .fill 3000 pwdA "password123" none
  , .click 3000 submitA (some 5000)
  , .click 3000 submitB (some 5000)
  , .expectVisible "text=Evidências salvas com sucesso" 3000 tc008AuthoredMsg
  , .sleepSeconds 5 ]

/-- The four scripts of the repository. -/
def allScripts : List (List Stmt) := [tc001Stmts, tc003Stmts, tc007Stmts, tc008Stmts]

/-!
Exception and execution semantics. `playwright.async_api.TimeoutError`
subclasses `playwright.async_api.Error`, so an `except async_api.Error`
clause catches both; Python's `except AssertionError` catches only
AssertionError; a NameError matches neither clause.
-/

/-- Python exception kinds the scripts can raise or handle. -/
inductive PyExc where
  | timeoutError
  | playwrightError
  | assertionError
  | nameError
  | lexicalError
deriving DecidableEq, Repr

/-- Which exceptions an `except async_api.Error` clause catches:
`TimeoutError` is a subclass of `Error` in `playwright.async_api`. -/
def caughtByPlaywrightError : PyExc → Bool
  | .timeoutError => true
  | .playwrightError => true
  | _ => false

/-- Which exceptions an `except AssertionError` clause catches. -/
def caughtByAssertionError : PyExc → Bool
  | .assertionError => true
  | _ => false

/-- A raised exception together with the message it carries when the
script authored one. -/
structure Raised where
  exc : PyExc
  msg : Option String
deriving DecidableEq, Repr

/-- Semantics of `try: body except C: pass` — an exception caught by the
clause is swallowed and control continues; any other exception propagates. -/
def tryExceptPass (catches : PyExc → Bool) (body : Option Raised) : Option Raised :=
  match body with
  | none => none
  | some r => if catches r.exc then none else some r

/-- Result of the bare `wait_for_load_state(state, timeout)` call:
`none` when the state is reached within the timeout, a `TimeoutError`
otherwise. -/
def waitForLoadStateBody (reachedInTime : Bool) : Option Raised :=
  if reachedInTime then none else some ⟨.timeoutError, none⟩

/-- The scripts' guarded load-state wait: the bare call wrapped in
`try ... except async_api.Error: pass` (e.g. TC001 lines 35 to 38). -/
def guardedWaitForLoadState (reachedInTime : Bool) : Option Raised :=
  tryExceptPass caughtByPlaywrightError (waitForLoadStateBody reachedInTime)

/-- Names bound at module level in every script: `import asyncio`,
`from playwright import async_api`, and the `run_test` definition
(lines 1 to 4, identical across the four files). -/
def scriptModuleNames : List String := ["asyncio", "async_api", "run_test"]

/-- Local names bound inside `run_test` by the time control reaches the
terminal assertion block: `pw`, `browser`, `context`, `page`, `frame`,
`elem` (and no others). -/
def runTestLocalNames : List String := ["pw", "browser", "context", "page", "frame", "elem"]

/-- Python name resolution at the assertion step: a name is in scope when
it is a local of `run_test` or a module-level binding. -/
def inScope (moduleNames localNames : List String) (n : String) : Bool :=
  localNames.contains n || moduleNames.contains n

/-- Semantics of `try: body except AssertionError: raise AssertionError(authoredMsg)`:
an AssertionError from the body is replaced by one carrying the authored
message; any other exception propagates unchanged. -/
def tryExceptAssertionReraise (body : Option Raised) (authoredMsg : String) : Option Raised :=
  match body with
  | none => none
  | some r => if caughtByAssertionError r.exc then some ⟨.assertionError, some authoredMsg⟩ else some r

/-- Body of the terminal assertion: `await expect(frame.locator(sel).first).to_be_visible(timeout)`.
Python resolves the name `expect` before anything is awaited; when it is
not in scope the statement raises NameError. When `expect` is in scope,
visibility within the timeout yields success and a timeout yields an
AssertionError (the behaviour of Playwright's `expect`). -/
def expectCallBody (moduleNames localNames : List String) (visibleInTime : Bool) : Option Raised :=
  if inScope moduleNames localNames "expect" then
    if visibleInTime then none else some ⟨.assertionError, none⟩
  else some ⟨.nameError, none⟩

/-- The scripts' full terminal-assertion statement: the expect call inside
`try ... except AssertionError: raise AssertionError(authoredMsg)`. -/
def execExpectStmt (moduleNames localNames : List String) (visibleInTime : Bool)
    (authoredMsg : String) : Option Raised :=
  tryExceptAssertionReraise (expectCallBody moduleNames localNames visibleInTime) authoredMsg

/-- One-statement semantics, parametrised by the environment: whether
load-state waits complete in time, whether the asserted target becomes
visible in time, and whether interactive fill / click operations succeed
within their budget (when not, they raise TimeoutError, which no handler
in the scripts catches). Navigations with `wait_until="commit"` are taken
to commit; infrastructure failures are modelled separately by `BodyStop`. -/
def execStmt (moduleNames localNames : List String)
    (loadReady visibleInTime interactiveOk : Bool) : Stmt → Option Raised
  | .goto _ _ _ => none
  | .tryWaitForLoadState _ _ => guardedWaitForLoadState loadReady
  | .framesTryWaitForLoadState _ _ => guardedWaitForLoadState loadReady
  | .fill _ _ _ _ => if interactiveOk then none else some ⟨.timeoutError, none⟩
  | .click _ _ _ => if interactiveOk then none else some ⟨.timeoutError, none⟩
  | .waitForVisible _ _ => if visibleInTime then none else some ⟨.timeoutError, none⟩
  | .assertVisible _ m => if visibleInTime then none else some ⟨.assertionError, some m⟩
  | .expectVisible _ _ m => execExpectStmt moduleNames localNames visibleInTime m
  | .sleepSeconds _ => none

/-- Run a statement list in order, stopping at the first raised exception;
returns the outcome and the number of statements attempted. -/
def runStmts (moduleNames localNames : List String)
    (loadReady visibleInTime interactiveOk : Bool) : List Stmt → Option Raised × Nat
  | [] => (none, 0)
  | s :: rest =>
    match execStmt moduleNames localNames loadReady visibleInTime interactiveOk s with
    | some r => (some r, 1)
    | none =>
      let (res, n) := runStmts moduleNames localNames loadReady visibleInTime interactiveOk rest
      (res, n + 1)

/-!
Resource lifecycle of `run_test` (identical in TC001, TC007, TC008,
lines 4 to 102 of TC001): `pw`, `browser`, `context` start as `None`;
the body acquires the driver (`async_playwright().start()`), then the
browser (`pw.chromium.launch(...)`), then the context
(`browser.new_context()`); the `finally` block runs
`if context: await context.close()`, `if browser: await browser.close()`,
`if pw: await pw.stop()` in that order.
-/

/-- The three owned resources, in acquisition order driver, browser, context. -/
inductive Res where
  | driverRes
  | browserRes
  | ctxRes
deriving DecidableEq, Repr

/-- Acquisition / release events of one run. -/
inductive Ev where
  | acq (r : Res)
  | rel (r : Res)
deriving DecidableEq, Repr

/-- Where the `try` body stops: each acquisition call can raise before
its variable is assigned (leaving it `None`), and the rest of the body can
raise after all three are acquired (assertion failure, NameError at the
terminal assertion, or a mid-run infrastructure error) or return normally. -/
inductive BodyStop where
  | startRaises
  | launchRaises
  | newContextRaises
  | bodyRaisesAfterAcquire
  | returnsNormally
deriving DecidableEq, Repr

/-- Resources acquired (variable non-None) at the point the body stops,
in acquisition order. -/
def acquiredRes : BodyStop → List Res
  | .startRaises => []
  | .launchRaises => [.driverRes]
  | .newContextRaises => [.driverRes, .browserRes]
  | .bodyRaisesAfterAcquire => [.driverRes, .browserRes, .ctxRes]
  | .returnsNormally => [.driverRes, .browserRes, .ctxRes]

/-- The `finally` block (TC001 lines 96 to 102): close the context when
acquired, then the browser when acquired, then stop the driver when
acquired. -/
def finallyBlock (acquired : List Res) : List Ev :=
  (if acquired.contains .ctxRes then [Ev.rel .ctxRes] else []) ++
  (if acquired.contains .browserRes then [Ev.rel .browserRes] else []) ++
  (if acquired.contains .driverRes then [Ev.rel .driverRes] else [])

/-- Full event trace of `run_test` for a given body outcome: the
acquisitions that happened, then the single execution of the `finally`
block (Python runs `finally` exactly once on every exit path of the
`try`: normal return, AssertionError, or infrastructure error). -/
def runTestTrace (stop : BodyStop) : List Ev :=
  (acquiredRes stop).map Ev.acq ++ finallyBlock (acquiredRes stop)

/-- Releases occurring in a trace, in order. -/
def releasesOf (t : List Ev) : List Res :=
  t.filterMap fun e => match e with | .rel r => some r | _ => none

/-- Acquisitions occurring in a trace, in order. -/
def acquisitionsOf (t : List Ev) : List Res :=
  t.filterMap fun e => match e with | .acq r => some r | _ => none

/-!
Timeout accounting. Every suspension in a statement carries a bound:
explicit at the call, or the context default for a `fill` with no
`timeout` argument.
-/

/-- Effective bound of an operation timeout: the explicit argument, or the
context default installed by `set_default_timeout`. -/
def effOpTimeoutMs (t : Option Nat) : Nat := t.getD defaultTimeoutMs

/-- Bounds, in milliseconds, of every suspension a statement performs:
navigation wait, guarded load-state wait (per frame), unconditional
pre-delay plus operation auto-wait for fill / click, visibility waits,
terminal-assertion poll, and the final sleep. `assertVisible`
(`is_visible()`) checks without waiting. -/
def suspensionBoundsMs : Stmt → List Nat
  | .goto _ _ t => [effOpTimeoutMs t]
  | .tryWaitForLoadState _ t => [t]
  | .framesTryWaitForLoadState _ t => [t]
  | .fill d _ _ t => [d, effOpTimeoutMs t]
  | .click d _ t => [d, effOpTimeoutMs t]
  | .waitForVisible _ t => [t]
  | .assertVisible _ _ => []
  | .expectVisible _ t _ => [t]
  | .sleepSeconds s => [s * 1000]

/-- Worst-case duration of one statement (one frame for the frames loop). -/
def stmtBoundMs (s : Stmt) : Nat := (suspensionBoundsMs s).sum

/-- Worst-case duration of a whole script body: the scenario-level deadline. -/
def scriptDeadlineMs (l : List Stmt) : Nat := (l.map stmtBoundMs).sum

/-- The pre-delay and operation budget of each interactive (fill / click)
statement, in script order: the unconditional `wait_for_timeout` that
precedes the operation on the same source line, and the operation's
effective timeout. -/
def interactivePairs : List Stmt → List (Nat × Nat)
  | [] => []
  | .fill d _ _ t :: rest => (d, effOpTimeoutMs t) :: interactivePairs rest
  | .click d _ t :: rest => (d, effOpTimeoutMs t) :: interactivePairs rest
  | _ :: rest => interactivePairs rest

/-- Claim C6 as stated: for every interactive action, resolution, operation
and any pre-operation delay all fall inside the single budget equal to the
action's timeout, i.e. the worst-case elapsed time of the whole action does
not exceed that timeout. -/
def interactivesShareOneBudget (l : List Stmt) : Prop :=
  ∀ p ∈ interactivePairs l, p.1 + p.2 ≤ p.2

/-!
Recovery-resumption predicates for C3, over the TC003 action sequence.
-/

/-- The login submit-button paths clicked by the scripts. -/
def loginSubmitPaths : List String := [submitA, submitB, submitC]

/-- A click that submits the login form. -/
def isLoginSubmitClick : Stmt → Bool
  | .click _ x _ => loginSubmitPaths.contains x
  | _ => false

/-- A fill that starts the login flow from scratch (typing the email). -/
def isLoginEmailFill : Stmt → Bool
  | .fill _ _ t _ => t == "example@gmail.com"
  | _ => false

/-- A navigation action (the scripts' recovery tactics re-navigate). -/
def isNavAction : Stmt → Bool
  | .goto _ _ _ => true
  | _ => false

/-- Statement at an index, with an inert default out of range. -/
def stmtAt (l : List Stmt) (i : Nat) : Stmt := l.getD i (.sleepSeconds 0)

/-- Claim C3 as stated, over a script: after any recovery navigation that
follows an already-committed login submission, the remaining actions never
restart the login flow from scratch. -/
def noLoginRestartAfterRecovery (l : List Stmt) : Prop :=
  ∀ i j k, i < j → j < k → k < l.length →
    isLoginSubmitClick (stmtAt l i) = true →
    isNavAction (stmtAt l j) = true →
    isLoginEmailFill (stmtAt l k) = false

/-!
Entry-point exit codes (C8) and module compilation (C10), modelled from
the CPython runtime the scripts run under.
-/

/-- Outcomes the spec distinguishes for one scenario run. -/
inductive RunOutcome where
  | passed
  | failed
  | errored
deriving DecidableEq, Repr

/-- What `asyncio.run(run_test())` leaves unhandled at module level for
each outcome: nothing when the scenario passes, the assertion error when
it fails, a Playwright error on infrastructure failure or exhausted
timeout budget. No script contains any handler or `sys.exit` around
`asyncio.run` (TC001 line 104). -/
def runTestRaises : RunOutcome → Option PyExc
  | .passed => none
  | .failed => some .assertionError
  | .errored => some .playwrightError

/-- Modelled from the CPython runtime: a process whose module terminates
normally exits with status 0; one terminated by any unhandled exception
exits with status 1. -/
def processExitCode : Option PyExc → Nat
  | none => 0
  | some _ => 1

/-- Exit code of `python TCxxx.py` for each scenario outcome. -/
def cliExitCode (o : RunOutcome) : Nat := processExitCode (runTestRaises o)

/-- Claim C8 as stated: exit codes 0 / 1 / 2 for Passed / Failed / Errored. -/
def exitCodesDistinguishOutcomes : Prop :=
  cliExitCode .passed = 0 ∧ cliExitCode .failed = 1 ∧ cliExitCode .errored = 2

/-- Modelled from the Python 3 lexical grammar: the characters that can
begin a token (identifier start, digit, string quote, operator, delimiter,
comment hash, line-continuation backslash, decorator at). The backquote is
not among them — it is not a token of Python 3. -/
def pythonTokenStartChar (c : Char) : Bool :=
  c.isAlpha || c.isDigit || c = '_' ||
  [ '+', '-', '*', '/', '%', '@', '<', '>', '=', '&', '|', '^', '~',
    '(', ')', '[', ']', '\x7b', '\x7d', ',', ':', '.', ';', '\\', '#',
    '"', '\x27' ].contains c

/-- First character of a line after leading spaces. -/
def firstNonSpaceChar (s : String) : Option Char :=
  (s.toList.dropWhile fun c => c = ' ').head?

/-- A line lexes when it is blank or its first character can begin a token. -/
def lineLexOk (s : String) : Bool :=
  match firstNonSpaceChar s with
  | none => true
  | some c => pythonTokenStartChar c

/-- Line 336 of TC003 (and likewise line 341): eight spaces followed by a
literal triple-backquote code fence inside the `run_test` body. -/
def tc003FenceLine : String := "        ```"

/-- Result of invoking a module: what was raised, how many statements of
the body executed, and whether a browser session was acquired. -/
structure ModuleRun where
  raised : Option PyExc
  stmtsExecuted : Nat
  sessionAcquired : Bool
deriving DecidableEq, Repr

/-- Modelled from the CPython runtime: a module is compiled in full before
any of its statements executes; when a line fails to lex, compilation
stops with a SyntaxError and nothing of the body runs. `execCount` and
`acquires` describe what executing the body would have done. -/
def runPythonModule (lines : List String) (execCount : Nat) (acquires : Bool) : ModuleRun :=
  if lines.all lineLexOk then ⟨none, execCount, acquires⟩
  else ⟨some .lexicalError, 0, false⟩

/-!
Claim theorems.
-/

/-- C1: for every run of `run_test`, whatever the body outcome (normal
return, assertion failure, or an infrastructure error at any acquisition
point or later), the `finally` block releases exactly the acquired
resources, each exactly once, in the order context, then browser, then
driver — the reverse of acquisition order — so no acquired resource
remains allocated after the run. -/
theorem c1_session_release_scoped :
    ∀ stop : BodyStop,
      releasesOf (runTestTrace stop) = (acquisitionsOf (runTestTrace stop)).reverse ∧
      (releasesOf (runTestTrace stop)).count Res.ctxRes ≤ 1 ∧
      (releasesOf (runTestTrace stop)).count Res.browserRes ≤ 1 ∧
      (releasesOf (runTestTrace stop)).count Res.driverRes ≤ 1 := by
  intro stop
  cases stop <;> exact ⟨rfl, by decide, by decide, by decide⟩

/-- Witness for C1 at a concrete outcome: the browser launch raises. -/
theorem c1_session_release_scoped_witness :
    releasesOf (runTestTrace BodyStop.launchRaises)
      = (acquisitionsOf (runTestTrace BodyStop.launchRaises)).reverse ∧
    (releasesOf (runTestTrace BodyStop.launchRaises)).count Res.ctxRes ≤ 1 ∧
    (releasesOf (runTestTrace BodyStop.launchRaises)).count Res.browserRes ≤ 1 ∧
    (releasesOf (runTestTrace BodyStop.launchRaises)).count Res.driverRes ≤ 1 :=
  c1_session_release_scoped BodyStop.launchRaises

/-- C2: every suspension point in the four scripts — navigation, guarded
load-state wait, unconditional pre-delay, fill / click auto-wait (explicit
timeout or the inherited session default of 5000 ms), visibility wait,
terminal-assertion poll, final sleep — carries a positive finite bound,
and each script body therefore has a finite worst-case deadline. -/
theorem c2_every_suspension_bounded :
    (allScripts.all fun l => l.all fun s =>
      (suspensionBoundsMs s).all fun b => decide (0 < b)) = true ∧
    scriptDeadlineMs tc001Stmts = 116000 ∧
    scriptDeadlineMs tc003Stmts = 472000 ∧
    scriptDeadlineMs tc007Stmts = 136000 ∧
    scriptDeadlineMs tc008Stmts = 124000 :=
  ⟨rfl, rfl, rfl, rfl, rfl⟩

/-- C3 counterexample: in TC003 the login is submitted (index 6), a
recovery navigation follows (index 16, the reload of the root route at
source line 117), and the script then restarts the login flow from
scratch (email fill at index 17) — refuting the claim that a committed
login is never re-submitted from scratch by a later recovery attempt. -/
theorem c3_counterexample_login_resubmitted :
    ¬ noLoginRestartAfterRecovery tc003Stmts := by
  intro h
  exact absurd (h 6 16 17 (by decide) (by decide) (by decide) (by decide) (by decide))
    (by decide)

/-- C3 amended: after a recovery navigation, TC003 re-runs the whole login
subsequence from scratch — an already-submitted login (submit click at
index 6) is followed by a recovery navigation (index 16) and then by a
fresh email fill (index 17) and a fresh submit click (index 19). -/
theorem c3_recovery_restarts_login_from_scratch :
    isLoginSubmitClick (stmtAt tc003Stmts 6) = true ∧
    isNavAction (stmtAt tc003Stmts 16) = true ∧
    isLoginEmailFill (stmtAt tc003Stmts 17) = true ∧
    isLoginSubmitClick (stmtAt tc003Stmts 19) = true ∧
    19 < tc003Stmts.length := by
  refine ⟨rfl, rfl, rfl, rfl, by decide⟩

/-- C4: every navigation in the four scripts is issued with
`wait_until="commit"` and an explicit per-navigation timeout of 10000 ms;
no navigation waits for a full load signal. -/
theorem c4_navigation_waits_commit_only :
    (allScripts.all fun l => l.all fun s =>
      match s with
      | .goto _ w t => w == "commit" && t == some 10000
      | _ => true) = true := rfl

/-- C5: a timeout of the bare load-state wait raises a TimeoutError, the
guarding `except async_api.Error: pass` swallows it, and the guarded
load-state statement never raises out of the action in any environment —
execution continues with the next action. -/
theorem c5_loadstate_timeout_swallowed :
    ∀ loadReady visibleInTime interactiveOk : Bool,
      waitForLoadStateBody false = some ⟨PyExc.timeoutError, none⟩ ∧
      guardedWaitForLoadState loadReady = none ∧
      execStmt scriptModuleNames runTestLocalNames loadReady visibleInTime interactiveOk
        (Stmt.tryWaitForLoadState "domcontentloaded" 3000) = none := by
  intro a b c
  exact ⟨rfl, by cases a <;> rfl, by cases a <;> rfl⟩

/-- Witness for C5 at a concrete environment: the load state never becomes
ready and the wait times out. -/
theorem c5_loadstate_timeout_swallowed_witness :
    waitForLoadStateBody false = some ⟨PyExc.timeoutError, none⟩ ∧
    guardedWaitForLoadState false = none ∧
    execStmt scriptModuleNames runTestLocalNames false false false
      (Stmt.tryWaitForLoadState "domcontentloaded" 3000) = none :=
  c5_loadstate_timeout_swallowed false false false

/-- C6 counterexample: the first interactive action of TC001 (the email
fill, source line 58) has an unconditional 3000 ms pre-delay and a 5000 ms
operation budget, so its worst-case elapsed time 8000 ms exceeds the
action's 5000 ms timeout — the pre-delay falls outside the budget. -/
theorem c6_counterexample_predelay_outside_budget :
    ¬ interactivesShareOneBudget tc001Stmts := by
  intro h
  have hmem : ((3000, 5000) : Nat × Nat) ∈ interactivePairs tc001Stmts := by decide
  exact absurd (h (3000, 5000) hmem) (by decide)

/-- C6 amended: within the fill / click call itself, resolution and
operation share one budget (5000 ms — explicit for click, the inherited
session default for fill), but every interactive action in every script is
preceded by an unconditional 3000 ms pause outside that budget, so the
end-to-end bound per interactive action is 8000 ms, not the action's
timeout. -/
theorem c6_interactive_bound_is_predelay_plus_timeout :
    (allScripts.all fun l => (interactivePairs l).all fun p =>
      p.1 == 3000 && p.2 == 5000) = true ∧
    (allScripts.all fun l => (interactivePairs l).all fun p =>
      p.1 + p.2 == 8000) = true :=
  ⟨rfl, rfl⟩

/-- C7: evaluating TC001 at the failing input — control reaches the
terminal assertion and the expected text is not visible in time — the run
raises NameError carrying no message, which is not the Completed(Failed)
outcome carrying the authored failure message that the spec requires. -/
theorem c7_assertion_step_raises_nameerror_not_failed :
    (runStmts scriptModuleNames runTestLocalNames true false true tc001Stmts).1
      = some ⟨PyExc.nameError, none⟩ ∧
    some (⟨PyExc.nameError, none⟩ : Raised)
      ≠ some ⟨PyExc.assertionError, some tc001AuthoredMsg⟩ := by
  exact ⟨rfl, by decide⟩

/-- C8 counterexample: an Errored run leaves an unhandled exception at
module level, and the process exits with status 1, not 2 — so the claimed
0 / 1 / 2 mapping fails and Errored is not distinguishable from Failed. -/
theorem c8_counterexample_errored_exit_code :
    cliExitCode RunOutcome.errored = 1 ∧ ¬ exitCodesDistinguishOutcomes := by
  refine ⟨rfl, fun h => absurd h.2.2 (by decide)⟩

/-- C8 amended: running one scenario exits with code 0 when the run
passes and code 1 for both Failed and Errored — assertion failures and
infrastructure errors are both unhandled exceptions, so the two are not
distinguishable by exit code. -/
theorem c8_exit_codes_conflate_failed_and_errored :
    cliExitCode RunOutcome.passed = 0 ∧
    cliExitCode RunOutcome.failed = 1 ∧
    cliExitCode RunOutcome.errored = 1 ∧
    cliExitCode RunOutcome.errored = cliExitCode RunOutcome.failed :=
  ⟨rfl, rfl, rfl, rfl⟩

/-- C9: the name `expect` is bound neither among the module-level names
nor among the locals of `run_test`, so in TC001, TC003 and TC008 —
whatever the load-state and visibility environment, with interactive
actions succeeding so that control reaches the assertion step — the run
ends in a NameError carrying no message: the `except AssertionError`
handler does not catch it, the authored message is never produced, and
the run never ends by the assertion succeeding or failing. -/
theorem c9_terminal_assertion_raises_nameerror :
    inScope scriptModuleNames runTestLocalNames "expect" = false ∧
    ∀ loadReady visibleInTime : Bool,
      runStmts scriptModuleNames runTestLocalNames loadReady visibleInTime true tc001Stmts
        = (some ⟨PyExc.nameError, none⟩, 14) ∧
      runStmts scriptModuleNames runTestLocalNames loadReady visibleInTime true tc003Stmts
        = (some ⟨PyExc.nameError, none⟩, 59) ∧
      runStmts scriptModuleNames runTestLocalNames loadReady visibleInTime true tc008Stmts
        = (some ⟨PyExc.nameError, none⟩, 16) := by
  refine ⟨rfl, ?_⟩
  intro a b
  cases a <;> cases b <;> exact ⟨rfl, rfl, rfl⟩

/-- Witness for C9 at a concrete environment: load states ready, the
asserted text visible in time — the NameError is raised regardless. -/
theorem c9_terminal_assertion_raises_nameerror_witness :
    runStmts scriptModuleNames runTestLocalNames true true true tc001Stmts
      = (some ⟨PyExc.nameError, none⟩, 14) ∧
    runStmts scriptModuleNames runTestLocalNames true true true tc003Stmts
      = (some ⟨PyExc.nameError, none⟩, 59) ∧
    runStmts scriptModuleNames runTestLocalNames true true true tc008Stmts
      = (some ⟨PyExc.nameError, none⟩, 16) :=
  c9_terminal_assertion_raises_nameerror.2 true true

/-- C10: the code-fence line of TC003 does not lex (its first character,
a backquote, begins no Python token), so any module containing it fails
to compile: every invocation ends in a SyntaxError raised at parse time,
with zero statements of the body executed and no session acquired. -/
theorem c10_tc003_fails_at_parse :
    lineLexOk tc003FenceLine = false ∧
    ∀ (lines : List String) (execCount : Nat) (acquires : Bool),
      tc003FenceLine ∈ lines →
      runPythonModule lines execCount acquires = ⟨some PyExc.lexicalError, 0, false⟩ := by
  refine ⟨rfl, ?_⟩
  intro lines n b hmem
  have hall : lines.all lineLexOk = false := by
    rcases hcase : lines.all lineLexOk with _ | _
    · rfl
    · exact absurd (List.all_eq_true.mp hcase _ hmem) (by decide)
  simp [runPythonModule, hall]

/-- Witness for C10 at a concrete module: the singleton module consisting
of the fence line itself. -/
theorem c10_tc003_fails_at_parse_witness :
    tc003FenceLine ∈ [tc003FenceLine] ∧
    runPythonModule [tc003FenceLine] 7 true = ⟨some PyExc.lexicalError, 0, false⟩ :=
  ⟨List.mem_singleton.mpr rfl,
   c10_tc003_fails_at_parse.2 [tc003FenceLine] 7 true (List.mem_singleton.mpr rfl)⟩
